import Mathlib

/-!
Shallow embedding of the zoop-multi-agent FNOL claim-processing backend
(`src/backend/agents/*.py`) and proofs about its specification claims.

The embedding translates the Python source:
* loose claim dictionaries (`ClaimDict`) model the `Dict[str, Any]` claim
  payloads consumed by `IntakeAgent`;
* typed claim views (`ClaimView`) model the `WorkflowState` TypedDict claim
  fields consumed by the risk and routing agents;
* the orchestrator graph (`orchestrator_agent.py`) is modelled as the
  composition of the node functions that are live at graph-construction time
  (Python name shadowing makes the *second* definitions of
  `final_routing_node` / `fast_track_node` / `error_node` the effective ones);
* wall-clock reads (`time.time()`) consume successive values of an abstract
  clock stream `Clk : Nat → Rat`; `datetime.now()` values are passed as
  explicit parameters, since the claims under study never depend on the
  actual time values.
-/

set_option autoImplicit false
set_option maxRecDepth 4000

/-! ## Small utilities over characters and lists -/

/-- Python `\s` whitespace class (space, tab, newline, vertical tab, form feed,
carriage return). -/
def isWSChar (c : Char) : Bool :=
  c == ' ' || c.toNat == 9 || c.toNat == 10 || c.toNat == 11 || c.toNat == 12 || c.toNat == 13

/-- Numeric value of a list of ASCII digits, most significant first. -/
def digitsToNat (cs : List Char) : Nat :=
  cs.foldl (fun n c => 10 * n + (c.toNat - '0'.toNat)) 0

/-- Does `p` occur as a prefix of `s`? (Case-sensitive.) -/
def listStartsWith : List Char → List Char → Bool
  | [], _ => true
  | _ :: _, [] => false
  | p :: ps, c :: cs => p == c && listStartsWith ps cs

/-- Does `p` occur as a contiguous substring of `s`? Models Python's
`p in s` on strings. -/
def listIsInfix (p : List Char) : List Char → Bool
  | [] => p.isEmpty
  | c :: cs => listStartsWith p (c :: cs) || listIsInfix p cs

/-- Lower-case every character; models Python `str.lower()` for the ASCII
strings this repository manipulates. -/
def strLower (s : String) : String :=
  String.mk (s.data.map Char.toLower)

/-- Python `str.strip()`: remove leading and trailing whitespace. -/
def stripWS (s : String) : String :=
  String.mk (((s.data.dropWhile isWSChar).reverse.dropWhile isWSChar).reverse)

/-- Take at most `n` leading characters satisfying `p`, returning them and
the rest.  Models a greedy bounded regex repetition such as `\d{1,3}`. -/
def takeUpTo (n : Nat) (p : Char → Bool) (cs : List Char) : List Char × List Char :=
  match n, cs with
  | 0, cs => ([], cs)
  | _ + 1, [] => ([], [])
  | n + 1, c :: cs =>
    if p c then
      let (a, b) := takeUpTo n p cs
      (c :: a, b)
    else ([], c :: cs)

/-- Take exactly `n` leading digits, or fail.  Models `\d{n}`. -/
def takeDigitsExact (n : Nat) (cs : List Char) : Option (List Char × List Char) :=
  match n, cs with
  | 0, cs => some ([], cs)
  | _ + 1, [] => none
  | n + 1, c :: cs =>
    if c.isDigit then
      (takeDigitsExact n cs).map (fun p => (c :: p.1, p.2))
    else none

/-- Scan left to right for the first position where `f` succeeds; the final
(empty) position is also tried.  Models `re.search`'s earliest-match rule. -/
def searchFirst {α : Type} (f : List Char → Option α) : List Char → Option α
  | [] => f []
  | c :: cs =>
    match f (c :: cs) with
    | some r => some r
    | none => searchFirst f cs

/-! ## Python scalar values -/

/-- Value stored under the `amount` key of a claim dictionary: a number or an
arbitrary (possibly non-numeric) string. -/
inductive AmountV where
  | num (q : ℚ)
  | str (s : String)
deriving DecidableEq

/-- Value stored under a boolean claim key: a Python bool or a string
(normalization converts string values to bools). -/
inductive BoolV where
  | b (x : Bool)
  | s (x : String)
deriving DecidableEq

/-- Truthiness of an optional string value (Python: absent, `None` and `""`
are falsy). -/
def optStrTruthy : Option String → Bool
  | some s => s ≠ ""
  | none => false

/-- Truthiness of an optional amount value (`0` and `""` are falsy). -/
def amountTruthy : Option AmountV → Bool
  | some (.num q) => q ≠ 0
  | some (.str s) => s ≠ ""
  | none => false

/-- Truthiness of an optional bool-ish value. -/
def boolVTruthy : Option BoolV → Bool
  | some (.b x) => x
  | some (.s s) => s ≠ ""
  | none => false

/-- Truthiness of an optional integer value (`0` is falsy). -/
def optIntTruthy : Option Int → Bool
  | some n => n ≠ 0
  | none => false

/-- The required-field check of `_validate_required_fields`: the value is
missing when it is absent, `None`, `""` or the string `"null"`. -/
def strMissing : Option String → Bool
  | none => true
  | some s => s == "" || s == "null"

/-- Required-field check for the `amount` value: a number never equals `""`
or `"null"`, a string value may. -/
def amountMissing : Option AmountV → Bool
  | none => true
  | some (.num _) => false
  | some (.str s) => s == "" || s == "null"

/-- Python `float()` applied to a string: optional surrounding whitespace,
optional sign, digits with an optional fractional part.  Exponent forms and
`inf`/`nan` are not modelled (never produced by this repository's data). -/
def pyFloatOfString (s : String) : Option ℚ :=
  let cs := ((s.data.dropWhile isWSChar).reverse.dropWhile isWSChar).reverse
  let (sgn, cs) : ℚ × List Char :=
    match cs with
    | '-' :: r => (-1, r)
    | '+' :: r => (1, r)
    | r => (1, r)
  let ip := cs.takeWhile Char.isDigit
  let r1 := cs.dropWhile Char.isDigit
  match r1 with
  | [] => if ip = [] then none else some (sgn * (digitsToNat ip : ℚ))
  | '.' :: fp =>
    if fp.all Char.isDigit ∧ (ip ≠ [] ∨ fp ≠ []) then
      some (sgn * ((digitsToNat ip : ℚ) + (digitsToNat fp : ℚ) / ((10 : ℚ) ^ fp.length)))
    else none
  | _ => none

/-- Python `float()` applied to the value of the `amount` key. -/
def pyFloat : AmountV → Option ℚ
  | .num q => some q
  | .str s => pyFloatOfString s

/-! ## Date-time model (Python `datetime`) -/

/-- Model of a Python `datetime` value.  `aware` records whether the value
carries timezone information (`fromisoformat` on a string with a UTC offset);
comparing or subtracting a naive and an aware datetime raises `TypeError`
in Python, which the call sites of this repository catch and swallow. -/
structure PyDateTime where
  year : Nat
  month : Nat
  day : Nat
  hour : Nat := 0
  minute : Nat := 0
  second : Nat := 0
  micro : Nat := 0
  aware : Bool := false
  offsetMinutes : Int := 0
deriving DecidableEq

/-- Gregorian leap-year test. -/
def isLeap (y : Nat) : Bool :=
  (y % 4 == 0 && y % 100 != 0) || y % 400 == 0

/-- Days in a month of the proleptic Gregorian calendar. -/
def daysInMonth (y m : Nat) : Nat :=
  if m = 2 then (if isLeap y then 29 else 28)
  else if m = 4 ∨ m = 6 ∨ m = 9 ∨ m = 11 then 30
  else 31

/-- Days in the months strictly before month `m` of year `y`. -/
def daysBeforeMonth (y m : Nat) : Nat :=
  (List.range (m - 1)).foldl (fun a i => a + daysInMonth y (i + 1)) 0

/-- Proleptic Gregorian ordinal of a date (day 1 = 0001-01-01), as in
Python's `datetime.toordinal`. -/
def gregOrdinal (y m d : Nat) : Nat :=
  365 * (y - 1) + (y - 1) / 4 + (y - 1) / 400 + daysBeforeMonth y m + d - (y - 1) / 100

/-- A `PyDateTime` as microseconds on the UTC timeline (aware values have
their offset subtracted, mirroring how Python compares aware datetimes). -/
def PyDateTime.toMicros (t : PyDateTime) : Int :=
  ((((gregOrdinal t.year t.month t.day : Int) * 24 + (t.hour : Int)) * 60 + (t.minute : Int)
      - (if t.aware then t.offsetMinutes else 0)) * 60 + (t.second : Int)) * 1000000
    + (t.micro : Int)

/-- Parse the time-of-day (and optional UTC offset) part of an ISO string,
given the already-parsed date components. -/
def parseTimePart (y m d : Nat) (cs : List Char) : Option PyDateTime :=
  match takeDigitsExact 2 cs with
  | none => none
  | some (hs, r1) =>
    let (mins, r2) :=
      match r1 with
      | ':' :: r => match takeDigitsExact 2 r with
        | some (ms, r') => (some ms, r')
        | none => (none, ':' :: r)
      | r => (some ([] : List Char), r)
    match mins with
    | none => none
    | some ms =>
      let (secsOpt, r3) :=
        match r2 with
        | ':' :: r => match takeDigitsExact 2 r with
          | some (ss, r') => (some ss, r')
          | none => (none, ':' :: r)
        | r => (some ([] : List Char), r)
      match secsOpt with
      | none => none
      | some ss =>
        let (microOpt, r4) :=
          match r3 with
          | '.' :: r =>
            let ds := r.takeWhile Char.isDigit
            let rest := r.dropWhile Char.isDigit
            if ds.length = 3 then (some (digitsToNat ds * 1000), rest)
            else if ds.length = 6 then (some (digitsToNat ds), rest)
            else (none, r3)
          | r => (some 0, r)
        match microOpt with
        | none => none
        | some mic =>
          let hh := digitsToNat hs
          let mm := if ms = [] then 0 else digitsToNat ms
          let sec := if ss = [] then 0 else digitsToNat ss
          if hh ≤ 23 ∧ mm ≤ 59 ∧ sec ≤ 59 then
            match r4 with
            | [] => some ⟨y, m, d, hh, mm, sec, mic, false, 0⟩
            | sgn :: r5 =>
              if sgn = '+' ∨ sgn = '-' then
                match takeDigitsExact 2 r5 with
                | some (ohs, ':' :: r6) =>
                  match takeDigitsExact 2 r6 with
                  | some (oms, []) =>
                    let ov : Int := (digitsToNat ohs * 60 + digitsToNat oms : Nat)
                    if digitsToNat ohs ≤ 23 ∧ digitsToNat oms ≤ 59 then
                      some ⟨y, m, d, hh, mm, sec, mic, true, if sgn = '-' then -ov else ov⟩
                    else none
                  | _ => none
                | _ => none
              else none
          else none

/-- Model of Python's `datetime.fromisoformat`, restricted to the grammar
`YYYY-MM-DD[<sep>HH[:MM[:SS[.fff[fff]]]][±HH:MM]]` (the separator is any
single character, as in CPython). -/
def parseISO (s : String) : Option PyDateTime :=
  match takeDigitsExact 4 s.data with
  | some (ys, '-' :: r2) =>
    match takeDigitsExact 2 r2 with
    | some (ms, '-' :: r4) =>
      match takeDigitsExact 2 r4 with
      | some (ds, r5) =>
        let y := digitsToNat ys
        let m := digitsToNat ms
        let d := digitsToNat ds
        if 1 ≤ m ∧ m ≤ 12 ∧ 1 ≤ d ∧ d ≤ daysInMonth y m then
          match r5 with
          | [] => some ⟨y, m, d, 0, 0, 0, 0, false, 0⟩
          | _ :: r6 => parseTimePart y m d r6
        else none
      | _ => none
    | _ => none
  | _ => none

/-- Zero-pad a natural number to two digits. -/
def pad2 (n : Nat) : String :=
  if n < 10 then "0" ++ toString n else toString n

/-- Zero-pad a natural number to four digits. -/
def pad4 (n : Nat) : String :=
  if n < 10 then "000" ++ toString n
  else if n < 100 then "00" ++ toString n
  else if n < 1000 then "0" ++ toString n
  else toString n

/-- Zero-pad a natural number to six digits. -/
def pad6 (n : Nat) : String :=
  if n < 10 then "00000" ++ toString n
  else if n < 100 then "0000" ++ toString n
  else if n < 1000 then "000" ++ toString n
  else if n < 10000 then "00" ++ toString n
  else if n < 100000 then "0" ++ toString n
  else toString n

/-- Model of Python's `datetime.isoformat()`. -/
def isoFormat (t : PyDateTime) : String :=
  pad4 t.year ++ "-" ++ pad2 t.month ++ "-" ++ pad2 t.day ++ "T"
    ++ pad2 t.hour ++ ":" ++ pad2 t.minute ++ ":" ++ pad2 t.second
    ++ (if t.micro ≠ 0 then "." ++ pad6 t.micro else "")
    ++ (if t.aware then
          (if t.offsetMinutes < 0 then "-" else "+")
            ++ pad2 (t.offsetMinutes.natAbs / 60) ++ ":" ++ pad2 (t.offsetMinutes.natAbs % 60)
        else "")

/-- Python `s.replace("/", "-")`. -/
def replSlash (s : String) : String :=
  String.mk (s.data.map (fun c => if c = '/' then '-' else c))

/-- Python `s.replace("Z", "+00:00")`. -/
def replZ (s : String) : String :=
  String.mk (s.data.flatMap (fun c => if c = 'Z' then "+00:00".data else [c]))

/-! ## Claim dictionaries (`Dict[str, Any]` claim payloads) -/

/-- A claim payload as consumed by `IntakeAgent.process`: each known key is
optional, mirroring a Python dictionary that may lack keys.  (Unknown extra
keys are ignored by every agent and are therefore not modelled.) -/
structure ClaimDict where
  claim_id : Option String := none
  type : Option String := none
  date : Option String := none
  amount : Option AmountV := none
  description : Option String := none
  customer_id : Option String := none
  policy_number : Option String := none
  incident_location : Option String := none
  timestamp_submitted : Option String := none
  police_report : Option String := none
  injuries_reported : Option BoolV := none
  other_party_involved : Option BoolV := none
  customer_tenure_days : Option Int := none
  previous_claims_count : Option Int := none
deriving DecidableEq

/-- The empty claim dictionary (`{}` in Python; falsy). -/
def emptyClaimDict : ClaimDict := {}

namespace IntakeAgent

/-- `IntakeAgent.CLAIM_TYPES`. -/
def CLAIM_TYPES : List String :=
  ["auto_collision", "auto_accident", "auto_theft", "auto_glass", "auto_comprehensive",
   "property_damage", "flood", "liability", "medical", "medical_payment"]

/-- Input accepted by `IntakeAgent.process`: a structured dictionary or a raw
text description. -/
inductive ClaimInput where
  | dict (d : ClaimDict)
  | text (t : String)

/-- `key_information` block produced by `_extract_key_information`. -/
structure KeyInfo where
  claim_type : Option String
  incident_date : Option String
  claim_amount : Option AmountV
  description : Option String
  customer_id : Option String
  policy_number : Option String
deriving DecidableEq

/-- Structured output of `IntakeAgent.process`. -/
structure IntakeOutput where
  claim : ClaimDict
  key_information : KeyInfo
  validation_errors : List String
  warnings : List String
  suggestions : List String
  is_valid : Bool
  completeness_score : ℚ
deriving DecidableEq

/-! ### Text-claim extraction (`_parse_text_claim`)

Each helper models one of the regular expressions of `_parse_text_claim`,
applied at a single position; `searchFirst` supplies `re.search`'s
left-to-right scan. -/

/-- Character class `[A-Z0-9-]` under `re.IGNORECASE`. -/
def isIdChar (c : Char) : Bool :=
  (65 ≤ c.toNat && c.toNat ≤ 90) || (97 ≤ c.toNat && c.toNat ≤ 122) || c.isDigit || c == '-'

/-- Case-insensitive literal match, returning the rest of the input. -/
def matchLitCI : List Char → List Char → Option (List Char)
  | [], cs => some cs
  | _ :: _, [] => none
  | l :: ls, c :: cs => if l.toLower == c.toLower then matchLitCI ls cs else none

/-- Attempt `claim[_\s]*id[:\s]*([A-Z0-9-]+)` (ignoring case) at the head of
the input, returning the captured group. -/
def tryClaimIdAt (cs : List Char) : Option String :=
  match matchLitCI "claim".data cs with
  | none => none
  | some r1 =>
    let r2 := r1.dropWhile (fun c => c == '_' || isWSChar c)
    match matchLitCI "id".data r2 with
    | none => none
    | some r3 =>
      let r4 := r3.dropWhile (fun c => c == ':' || isWSChar c)
      let grp := r4.takeWhile isIdChar
      if grp = [] then none else some (String.mk grp)

/-- Consume `(?:,\d{3})*` greedily. -/
def commaGroups : List Char → List Char × List Char
  | ',' :: a :: b :: c :: rest =>
    if a.isDigit && b.isDigit && c.isDigit then
      let (g, r) := commaGroups rest
      (',' :: a :: b :: c :: g, r)
    else ([], ',' :: a :: b :: c :: rest)
  | cs => ([], cs)

/-- Consume `(?:\.\d{2})?`. -/
def decPart : List Char → List Char
  | '.' :: a :: b :: _ => if a.isDigit && b.isDigit then ['.', a, b] else []
  | _ => []

/-- Attempt `\$?(\d{1,3}(?:,\d{3})*(?:\.\d{2})?)` at the head of the input,
returning the captured group. -/
def tryAmountAt (cs : List Char) : Option (List Char) :=
  let cs' := match cs with
    | '$' :: r => r
    | _ => cs
  let (d1, r1) := takeUpTo 3 Char.isDigit cs'
  if d1 = [] then none
  else
    let (g, r2) := commaGroups r1
    some (d1 ++ g ++ decPart r2)

/-- Numeric value of a matched amount group: drop the commas and read the
digits and optional two decimals (`float(amount_str.replace(",", ""))`). -/
def amountGroupToRat (g : List Char) : ℚ :=
  let g' := g.filter (fun c => c ≠ ',')
  let ip := g'.takeWhile Char.isDigit
  let rest := g'.dropWhile Char.isDigit
  let fp := (rest.drop 1).takeWhile Char.isDigit
  (digitsToNat ip : ℚ) + (digitsToNat fp : ℚ) / ((10 : ℚ) ^ fp.length)

/-- Attempt `(\d{4}-\d{2}-\d{2})` at the head of the input. -/
def tryDateYMDAt (cs : List Char) : Option (List Char) :=
  match takeDigitsExact 4 cs with
  | some (y, '-' :: r2) =>
    match takeDigitsExact 2 r2 with
    | some (m, '-' :: r4) =>
      match takeDigitsExact 2 r4 with
      | some (d, _) => some (y ++ '-' :: m ++ '-' :: d)
      | none => none
    | _ => none
  | _ => none

/-- Attempt `(\d{1,2}<sep>\d{1,2}<sep>\d{4})` at the head of the input, with
the greedy two-then-one backtracking of `\d{1,2}`. -/
def tryDateMDYAt (sep : Char) (cs : List Char) : Option (List Char) :=
  let tail (da : List Char) (r : List Char) : Option (List Char) :=
    match r with
    | c :: r1 =>
      if c = sep then
        let tail2 (db : List Char) (r' : List Char) : Option (List Char) :=
          match r' with
          | c' :: r2 =>
            if c' = sep then
              match takeDigitsExact 4 r2 with
              | some (dy, _) => some (da ++ sep :: db ++ sep :: dy)
              | none => none
            else none
          | [] => none
        match takeDigitsExact 2 r1 with
        | some (db, r') =>
          match tail2 db r' with
          | some g => some g
          | none =>
            match takeDigitsExact 1 r1 with
            | some (db', r'') => tail2 db' r''
            | none => none
        | none =>
          match takeDigitsExact 1 r1 with
          | some (db', r'') => tail2 db' r''
          | none => none
      else none
    | [] => none
  match takeDigitsExact 2 cs with
  | some (da, r) =>
    match tail da r with
    | some g => some g
    | none =>
      match takeDigitsExact 1 cs with
      | some (da', r') => tail da' r'
      | none => none
  | none =>
    match takeDigitsExact 1 cs with
    | some (da', r') => tail da' r'
    | none => none

/-- `s.replace("_", " ")`. -/
def underscoreToSpace (s : String) : String :=
  String.mk (s.data.map (fun c => if c = '_' then ' ' else c))

/-- The claim-type extraction loop: first listed type whose space or
underscore form occurs in the lower-cased text. -/
def extractType (text : String) : Option String :=
  let lt := (strLower text).data
  CLAIM_TYPES.findSome? (fun ct =>
    if listIsInfix (underscoreToSpace ct).data lt || listIsInfix ct.data lt then some ct
    else none)

/-- `IntakeAgent._parse_text_claim`: extract structured data from a raw text
description; the entire text always becomes the description. -/
def parse_text_claim (text : String) : ClaimDict :=
  let cs := text.data
  { claim_id := searchFirst tryClaimIdAt cs
    type := extractType text
    amount := (searchFirst tryAmountAt cs).map (fun g => AmountV.num (amountGroupToRat g))
    date :=
      (match searchFirst tryDateYMDAt cs with
       | some g => some (String.mk g)
       | none =>
         match searchFirst (tryDateMDYAt '/') cs with
         | some g => some (String.mk g)
         | none => (searchFirst (tryDateMDYAt '-') cs).map String.mk)
    description := some text }

/-! ### Validation and normalization -/

/-- `IntakeAgent._extract_key_information`. -/
def extract_key_information (c : ClaimDict) : KeyInfo :=
  { claim_type := c.type
    incident_date := c.date
    claim_amount := c.amount
    description := c.description
    customer_id := c.customer_id
    policy_number := c.policy_number }

/-- `IntakeAgent._validate_required_fields`, in the field order of
`REQUIRED_FIELDS` (the `incident_location` error uses the PRD name
`missing_location`). -/
def validate_required_fields (c : ClaimDict) : List String :=
  (if strMissing c.claim_id then ["missing_claim_id"] else [])
    ++ (if strMissing c.type then ["missing_type"] else [])
    ++ (if strMissing c.date then ["missing_date"] else [])
    ++ (if amountMissing c.amount then ["missing_amount"] else [])
    ++ (if strMissing c.description then ["missing_description"] else [])
    ++ (if strMissing c.customer_id then ["missing_customer_id"] else [])
    ++ (if strMissing c.policy_number then ["missing_policy_number"] else [])
    ++ (if strMissing c.incident_location then ["missing_location"] else [])
    ++ (if strMissing c.timestamp_submitted then ["missing_timestamp_submitted"] else [])

/-- `IntakeAgent._validate_data_types`. -/
def validate_data_types (c : ClaimDict) : List String :=
  (match c.amount with
   | none => []
   | some a =>
     match pyFloat a with
     | none => ["invalid_amount_format"]
     | some q => if q < 0 then ["invalid_amount_negative"] else [])
    ++ (match c.date with
        | some s =>
          if s ≠ "" then
            if s ≠ "null" then
              match parseISO (replSlash s) with
              | none => ["invalid_date_format"]
              | some _ => []
            else []
          else []
        | none => [])
    ++ (match c.type with
        | some t => if t ≠ "" ∧ t ∉ CLAIM_TYPES then ["invalid_claim_type"] else []
        | none => [])

/-- `IntakeAgent._validate_business_rules`.  `now` stands for the
`datetime.now()` call; comparing an aware claim date with the naive `now`
raises `TypeError` in Python, which the source swallows, so no error is
produced in that case. -/
def validate_business_rules (now : PyDateTime) (c : ClaimDict) : List String :=
  (match c.date with
   | some s =>
     if s ≠ "" then
       match parseISO (replSlash s) with
       | some dt =>
         if dt.aware = false ∧ now.toMicros < dt.toMicros then ["future_date_not_allowed"] else []
       | none => []
     else []
   | none => [])
    ++ (if amountTruthy c.amount then
          match c.amount with
          | some a =>
            match pyFloat a with
            | some q =>
              if q > 1000000 then ["amount_requires_special_handling"]
              else if q ≤ 0 then ["invalid_amount_zero_or_negative"]
              else []
            | none => []
          | none => []
        else [])

/-- `IntakeAgent._generate_suggestions`. -/
def generate_suggestions (errors : List String) : List String :=
  (if "missing_date" ∈ errors then ["Please provide the incident date in YYYY-MM-DD format"] else [])
    ++ (if "missing_incident_location" ∈ errors then ["Please specify where the incident occurred"] else [])
    ++ (if "missing_amount" ∈ errors then ["Please provide the estimated claim amount"] else [])
    ++ (if "invalid_amount_format" ∈ errors then ["Amount should be a valid number (e.g., 1500.00)"] else [])
    ++ (if "invalid_date_format" ∈ errors then ["Date should be in YYYY-MM-DD format"] else [])

/-- `IntakeAgent._normalize_claim_data`. -/
def normalize_claim_data (c : ClaimDict) : ClaimDict :=
  let c1 :=
    match c.date with
    | some s =>
      if s ≠ "" ∧ s ≠ "null" then
        match parseISO (replSlash s) with
        | some dt => { c with date := some (isoFormat dt) }
        | none => c
      else c
    | none => c
  let c2 :=
    if amountTruthy c1.amount then
      match c1.amount with
      | some a =>
        match pyFloat a with
        | some q => { c1 with amount := some (AmountV.num q) }
        | none => c1
      | none => c1
    else c1
  let strToBool (s : String) : BoolV :=
    .b (strLower s = "true" ∨ strLower s = "yes" ∨ strLower s = "1")
  let c3 :=
    match c2.injuries_reported with
    | some (.s s) => { c2 with injuries_reported := some (strToBool s) }
    | _ => c2
  match c3.other_party_involved with
  | some (.s s) => { c3 with other_party_involved := some (strToBool s) }
  | _ => c3

/-- The per-field filter of `_calculate_completeness_score`
(`claim.get(field) and claim[field] != "null" and claim[field] != ""`). -/
def strFilled (v : Option String) : Bool :=
  optStrTruthy v && v ≠ some "null"

/-- Completeness filter for the `amount` field. -/
def amountFilled (v : Option AmountV) : Bool :=
  amountTruthy v && v ≠ some (.str "null")

/-- Completeness filter for bool-ish fields. -/
def boolFilled (v : Option BoolV) : Bool :=
  boolVTruthy v && v ≠ some (.s "null")

/-- `IntakeAgent._calculate_completeness_score`: required fields count double;
the adjusted total is `9 * 2 + 5 = 23`. -/
def calculate_completeness_score (c : ClaimDict) : ℚ :=
  let req : List Bool :=
    [strFilled c.claim_id, strFilled c.type, strFilled c.date, amountFilled c.amount,
     strFilled c.description, strFilled c.customer_id, strFilled c.policy_number,
     strFilled c.incident_location, strFilled c.timestamp_submitted]
  let opt : List Bool :=
    [strFilled c.police_report, boolFilled c.injuries_reported,
     boolFilled c.other_party_involved, optIntTruthy c.customer_tenure_days,
     optIntTruthy c.previous_claims_count]
  let completed : Nat := 2 * (req.filter id).length + (opt.filter id).length
  min 1 ((completed : ℚ) / 23)

/-- `IntakeAgent.process`: parse (text input only), validate, and normalize a
claim.  `now` stands for `datetime.now()` inside the business rules. -/
def process (now : PyDateTime) (claim_input : ClaimInput) : IntakeOutput :=
  let parsed : ClaimDict × List String :=
    match claim_input with
    | .text t =>
      let c := parse_text_claim t
      if c = emptyClaimDict then (c, ["failed_to_parse_text_input"]) else (c, [])
    | .dict d => (d, [])
  let claim := parsed.1
  let key_info := extract_key_information claim
  let errors := parsed.2 ++ validate_required_fields claim ++ validate_data_types claim
    ++ validate_business_rules now claim
  let suggestions := generate_suggestions errors
  let normalized := normalize_claim_data claim
  { claim := normalized
    key_information := key_info
    validation_errors := errors
    warnings := []
    suggestions := suggestions
    is_valid := errors.length = 0
    completeness_score := calculate_completeness_score normalized }

end IntakeAgent

/-! ## Typed claim view (the `WorkflowState` claim fields)

The risk and routing agents are invoked by the orchestrator with the
`WorkflowState` TypedDict as the claim object, whose claim fields carry the
declared types below (`police_report` may be `None` in practice and is
modelled as optional). -/

/-- The claim fields of `WorkflowState`, as read by `RiskAssessmentAgent` and
`RoutingAgent`. -/
structure ClaimView where
  claim_id : String
  type : String
  date : String
  amount : ℚ
  description : String
  customer_id : String
  policy_number : String
  incident_location : String
  police_report : Option String
  injuries_reported : Bool
  other_party_involved : Bool
  timestamp_submitted : String
  customer_tenure_days : Int
  previous_claims_count : Int
deriving DecidableEq

/-! ## Risk assessment agent (`risk_assessment_agent.py`) -/

/-- Input of `RiskAssessmentAgent.process` (`{"claim": ..., "validation_errors": ...}`). -/
structure RiskInput where
  claim : ClaimView
  validation_errors : List String
deriving DecidableEq

/-- Output dictionary of `RiskAssessmentAgent.process`. -/
structure RiskOutput where
  claim : ClaimView
  validation_errors : List String
  risk_score : Int
  risk_level : String
  risk_reasons : List String
  fraud_indicators : Nat
  assessment_timestamp : String
deriving DecidableEq

namespace RiskAssessmentAgent

/-- `RiskAssessmentAgent._is_late_reporting`: reported more than 7 days
after the incident.  Subtracting a naive from an aware datetime (or vice
versa) raises `TypeError` in Python, which the `except` clause turns into
`False`. -/
def is_late_reporting (c : ClaimView) : Bool :=
  if c.date = "" ∨ c.timestamp_submitted = "" then false
  else
    match parseISO (replZ c.date), parseISO (replZ c.timestamp_submitted) with
    | some incident, some submitted =>
      if incident.aware ≠ submitted.aware then false
      else decide (7 < (submitted.toMicros - incident.toMicros).fdiv 86400000000)
    | _, _ => false

/-- `RiskAssessmentAgent._is_suspicious_timing`: submission between 10 PM
and 5 AM. -/
def is_suspicious_timing (c : ClaimView) : Bool :=
  if c.timestamp_submitted = "" then false
  else
    match parseISO (replZ c.timestamp_submitted) with
    | some submitted => 22 ≤ submitted.hour || submitted.hour ≤ 5
    | none => false

/-- The sequential scoring rules of `RiskAssessmentAgent.process`, starting
from the base score 2 and accumulating reasons in order (rules 1–12 of the
source). -/
def scoreAndReasons (c : ClaimView) (errors : List String) : Int × List String :=
  let s : Int := 2
  let r : List String := []
  let amount := c.amount
  let tenure := c.customer_tenure_days
  let police := optStrTruthy c.police_report
  let previous := c.previous_claims_count
  -- Rule 1: high claim amount thresholds (with liability adjustments)
  let (s, r) :=
    if amount > 50000 then
      if c.type = "liability" ∧ police ∧ tenure > 1000 ∧ previous = 0 then
        (s + 1, r ++ ["High-value liability claim (well-documented)"])
      else (s + 4, r ++ ["Very high claim amount (>$50k)"])
    else if amount > 20000 then
      if c.type = "liability" ∧ police ∧ tenure > 365 then
        (s + 1, r ++ ["Medium-high liability claim (documented)"])
      else (s + 3, r ++ ["High claim amount (>$20k)"])
    else (s, r)
  -- Rule 2: new customer with significant claim
  let (s, r) :=
    if tenure < 30 ∧ amount > 15000 then
      if ¬(c.type = "liability" ∧ police) then
        (s + 4, r ++ ["New customer (<30 days) with high claim"])
      else (s, r)
    else if tenure < 90 ∧ amount > 10000 then
      if ¬(c.type = "liability" ∧ police) then
        (s + 2, r ++ ["Recent customer (<90 days) with significant claim"])
      else (s, r)
    else (s, r)
  -- Rule 3: multiple previous claims pattern
  let (s, r) :=
    if previous > 4 then (s + 3, r ++ ["Excessive previous claims (>4)"])
    else if previous > 2 then (s + 2, r ++ ["Multiple previous claims"])
    else (s, r)
  -- Rule 4: suspicious test/minimal claims
  let (s, r) :=
    if amount ≤ 1 then (s + 3, r ++ ["Suspicious minimal amount claim"])
    else if amount < 100 ∧ previous > 0 then
      (s + 2, r ++ ["Low amount claim with claim history"])
    else (s, r)
  -- Rule 5: missing critical information
  let (s, r) :=
    if errors ≠ [] then (s + 2, r ++ ["Incomplete or missing critical data"])
    else (s, r)
  -- Rule 6: suspicious location patterns
  let loc := strLower c.incident_location
  let (s, r) :=
    if loc ∈ ["unknown location", "unknown", ""] ∨ stripWS loc = "" then
      (s + 2, r ++ ["Unknown or missing incident location"])
    else (s, r)
  -- Rule 7: missing police report for high-value claims
  let (s, r) :=
    if ¬police ∧ amount > 10000 then
      if c.type = "liability" ∧ tenure > 1000 then (s, r)
      else (s + 2, r ++ ["High-value claim without police report"])
    else (s, r)
  -- Rule 8: hit and run claims without a police report
  let (s, r) :=
    if listIsInfix "hit and run".data (strLower c.description).data ∧ ¬police then
      (s + 3, r ++ ["Hit and run claim without police report"])
    else (s, r)
  -- Rule 9: theft claims from new customers
  let (s, r) :=
    if listIsInfix "theft".data c.type.data ∧ tenure < 60 then
      (s + 3, r ++ ["Theft claim from new customer"])
    else (s, r)
  -- Rule 10: claims just under common thresholds
  let (s, r) :=
    if 9900 ≤ amount ∧ amount ≤ 10100 then
      (s + 2, r ++ ["Claim amount near $10k threshold"])
    else (s, r)
  -- Rule 11: late reporting
  let (s, r) :=
    if is_late_reporting c then (s + 1, r ++ ["Late claim reporting"]) else (s, r)
  -- Rule 12: suspicious submission timing
  if is_suspicious_timing c then (s + 1, r ++ ["Suspicious submission timing"]) else (s, r)

/-- The score-band mapping of `RiskAssessmentAgent.process`. -/
def riskLevelOf (score : Int) : String :=
  if score ≤ 3 then "LOW"
  else if 4 ≤ score ∧ score ≤ 6 then "MEDIUM"
  else "HIGH"

/-- `RiskAssessmentAgent.process`.  `nowIso` stands for the
`datetime.now().isoformat()` timestamp. -/
def process (nowIso : String) (intake_output : RiskInput) : RiskOutput :=
  let (raw, reasons) := scoreAndReasons intake_output.claim intake_output.validation_errors
  let risk_score := min 10 (max 1 raw)
  { claim := intake_output.claim
    validation_errors := intake_output.validation_errors
    risk_score := risk_score
    risk_level := riskLevelOf risk_score
    risk_reasons := reasons
    fraud_indicators := reasons.length
    assessment_timestamp := nowIso }

end RiskAssessmentAgent

/-! ## Routing agent (`routing_agent.py`) -/

/-- Input of `RoutingAgent.process`: the fields it reads from the risk
output (or from the hand-built routing-input dictionaries of the
orchestrator, whose `risk_level` may be `None`). -/
structure RoutingInput where
  claim : ClaimView
  risk_level : Option String
  risk_reasons : List String
  validation_errors : List String
deriving DecidableEq

/-- Routing decision dictionary returned by `RoutingAgent.process`.
`processing_path` is `none` in the (unreachable) urgent/standard-tier case
where the Python helper falls through and returns `None`. -/
structure RoutingDecision where
  claim_id : String
  risk_level : Option String
  priority : String
  adjuster_tier : String
  validation_errors : List String
  risk_reasons : List String
  routing_reasons : List String
  claim_amount : ℚ
  processing_path : Option String
  estimated_processing_time : String
  timestamp : String
deriving DecidableEq

namespace RoutingAgent

/-- `RoutingAgent.HIGH_VALUE_THRESHOLD`. -/
def HIGH_VALUE_THRESHOLD : ℚ := 50000

/-- `RoutingAgent.MEDIUM_VALUE_THRESHOLD`. -/
def MEDIUM_VALUE_THRESHOLD : ℚ := 10000

/-- Rendering of a claim amount inside a routing reason; abstracts the
Python f-string formatting (`{claim_amount:,}`), which no claim depends on. -/
def fmtAmount (q : ℚ) : String :=
  toString q

/-- `RoutingAgent._determine_processing_path`. -/
def determine_processing_path (priority tier : String) (amount : ℚ) : Option String :=
  if priority = "urgent" then
    if tier = "fraud_specialist" then some "fraud_investigation"
    else if tier = "senior" then some "senior_review"
    else none
  else if priority = "low" then some "fast_track"
  else if amount ≥ MEDIUM_VALUE_THRESHOLD then some "detailed_review"
  else some "standard_processing"

/-- `RoutingAgent._estimate_processing_time`. -/
def estimate_processing_time (priority tier : String) (validation_errors : List String) : String :=
  let base :=
    if priority = "urgent" then "24-48 hours"
    else if priority = "normal" then "3-5 business days"
    else if priority = "low" then "1-2 business days"
    else "3-5 business days"
  let withVe := if validation_errors ≠ [] then base ++ " (additional time needed for data validation)" else base
  if tier = "fraud_specialist" then "5-10 business days (fraud investigation)" else withVe

/-- `RoutingAgent.process`: the ordered routing decision table. `nowIso`
stands for `datetime.now().isoformat()`. -/
def process (nowIso : String) (risk_output : RoutingInput) : RoutingDecision :=
  let claim := risk_output.claim
  let risk_level := risk_output.risk_level
  let validation_errors := risk_output.validation_errors
  let claim_amount := claim.amount
  -- ordered rule cascade (priority, adjuster tier, appended reasons)
  let (p, t, rr) :=
    if claim.injuries_reported ∨ claim.type ∈ ["liability", "medical_payment"] then
      ("urgent", "senior", ["Urgent: Injuries reported or liability/medical claim type"])
    else if risk_level = some "HIGH" then
      ("urgent", "fraud_specialist", ["Urgent: High fraud risk detected"])
    else if claim_amount ≥ HIGH_VALUE_THRESHOLD then
      ("urgent", "senior",
        ["Urgent: High-value claim ($" ++ fmtAmount claim_amount ++ " >= $" ++ fmtAmount HIGH_VALUE_THRESHOLD ++ ")"])
    else if claim_amount ≥ MEDIUM_VALUE_THRESHOLD ∧ risk_level ∈ [some "MEDIUM", some "HIGH"] then
      ("normal", "senior",
        ["Elevated: Medium-value claim ($" ++ fmtAmount claim_amount ++ ") with "
          ++ (risk_level.getD "") ++ " risk"])
    else if risk_level = some "MEDIUM" then
      ("normal", "standard", ["Standard: Medium risk level"])
    else if claim.type = "auto_glass" ∧ risk_level = some "LOW" then
      ("low", "standard", ["Low priority: Simple auto glass claim with low risk"])
    else
      ("normal", "standard",
        ["Standard routing: " ++ (risk_level.getD "None") ++ " risk, $" ++ fmtAmount claim_amount ++ " claim"])
  -- validation errors may elevate (never lower) a low priority
  let (p, rr) :=
    if validation_errors ≠ [] then
      (if p = "low" then "normal" else p,
        rr ++ ["Priority elevated due to validation errors: " ++ String.intercalate ", " validation_errors])
    else (p, rr)
  -- special claim types needing attention
  let (t, rr) :=
    if claim.type = "auto_theft" then
      (if t = "standard" ∧ claim_amount ≥ MEDIUM_VALUE_THRESHOLD then "senior" else t,
        rr ++ ["Theft claims require careful verification"])
    else if claim.type = "flood" then
      (if t = "standard" ∧ claim_amount ≥ MEDIUM_VALUE_THRESHOLD then "senior" else t,
        rr ++ ["Natural disaster claims need specialized handling"])
    else if claim.type = "fire" then
      (if t = "standard" ∧ claim_amount ≥ MEDIUM_VALUE_THRESHOLD then "senior" else t,
        rr ++ ["Fire claims require detailed investigation"])
    else (t, rr)
  { claim_id := claim.claim_id
    risk_level := risk_level
    priority := p
    adjuster_tier := t
    validation_errors := validation_errors
    risk_reasons := risk_output.risk_reasons
    routing_reasons := rr
    claim_amount := claim_amount
    processing_path := determine_processing_path p t claim_amount
    estimated_processing_time := estimate_processing_time p t validation_errors
    timestamp := nowIso }

end RoutingAgent

/-! ## Orchestrator state model (`orchestrator_agent.py`)

`WorkflowState` models the LangGraph TypedDict state: between nodes only the
declared schema keys are carried (LangGraph's channels drop keys outside the
schema, such as the intake output's `claim`/`is_valid` or the routing
decision's `routing_reasons`). -/

/-- One entry of `workflow_log` (the initial `workflow_initiated` entry has
no `agent` key, modelled by `none`). -/
structure LogEntry where
  timestamp : ℚ
  event : String
  agent : Option String
  claim_id : String
  details : String
deriving DecidableEq

/-- One entry of `inter_agent_communication`.  The free-form `data` payload
is not modelled: no agent and no claim under study ever reads it back. -/
structure CommEntry where
  timestamp : ℚ
  from_agent : String
  to_agent : String
  message : String
  claim_id : String
deriving DecidableEq

/-- The process-wide metrics dictionary of `OrchestratorAgent`. -/
structure Metrics where
  total_claims_processed : Nat
  successful_claims : Nat
  failed_claims : Nat
  average_processing_time : ℚ
  retry_statistics : List (Int × Nat)
deriving DecidableEq

/-- The zero metrics of a fresh `OrchestratorAgent`. -/
def Metrics.init : Metrics :=
  { total_claims_processed := 0
    successful_claims := 0
    failed_claims := 0
    average_processing_time := 0
    retry_statistics := [] }

/-- The LangGraph `WorkflowState` schema.  Result fields not present before
their stage runs are optional. -/
structure WorkflowState where
  claim_id : String
  type : String
  date : String
  amount : ℚ
  description : String
  customer_id : String
  policy_number : String
  incident_location : String
  police_report : Option String
  injuries_reported : Bool
  other_party_involved : Bool
  timestamp_submitted : String
  customer_tenure_days : Int
  previous_claims_count : Int
  validation_errors : List String
  risk_score : Option Int
  risk_level : Option String
  risk_reasons : List String
  priority : Option String
  adjuster_tier : Option String
  error : Option String
  processing_mode : Option String
  parallel_results : Option (RiskOutput × RoutingDecision)
  workflow_status : String
  agent_statuses : List (String × String)
  processing_start_time : ℚ
  processing_end_time : ℚ
  total_processing_time : ℚ
  retry_count : Int
  max_retries : Int
  workflow_log : List LogEntry
  inter_agent_communication : List CommEntry
  current_agent : String
  next_agent : String
deriving DecidableEq

/-- Python dict assignment `d[k] = v` on a string-keyed dictionary: replace
the value of an existing key in place, otherwise append the new key. -/
def dictSet : List (String × String) → String → String → List (String × String)
  | [], k, v => [(k, v)]
  | p :: rest, k, v => if p.1 = k then (k, v) :: rest else p :: dictSet rest k v

/-- Python dict lookup `d.get(k)`. -/
def dictGet (d : List (String × String)) (k : String) : Option String :=
  (d.find? (fun p => p.1 = k)).map (fun p => p.2)

/-- The claim fields of the workflow state, as passed to the risk and
routing agents. -/
def WorkflowState.toClaimView (s : WorkflowState) : ClaimView :=
  { claim_id := s.claim_id
    type := s.type
    date := s.date
    amount := s.amount
    description := s.description
    customer_id := s.customer_id
    policy_number := s.policy_number
    incident_location := s.incident_location
    police_report := s.police_report
    injuries_reported := s.injuries_reported
    other_party_involved := s.other_party_involved
    timestamp_submitted := s.timestamp_submitted
    customer_tenure_days := s.customer_tenure_days
    previous_claims_count := s.previous_claims_count }

/-- The claim-data dictionary handed to `IntakeAgent.process` by
`intake_node` (the state minus the tracking keys; the agent only reads the
known claim keys). -/
def WorkflowState.toClaimDict (s : WorkflowState) : ClaimDict :=
  { claim_id := some s.claim_id
    type := some s.type
    date := some s.date
    amount := some (.num s.amount)
    description := some s.description
    customer_id := some s.customer_id
    policy_number := some s.policy_number
    incident_location := some s.incident_location
    timestamp_submitted := some s.timestamp_submitted
    police_report := s.police_report
    injuries_reported := some (.b s.injuries_reported)
    other_party_involved := some (.b s.other_party_involved)
    customer_tenure_days := some s.customer_tenure_days
    previous_claims_count := some s.previous_claims_count }

/-- Abstract wall clock: the `n`-th call of `time.time()` returns `clock n`. -/
abbrev Clk := ℕ → ℚ

/-- Ambient environment of a workflow run: the wall clock and the values
standing for `datetime.now()` calls. -/
structure Env where
  clock : Clk
  nowDT : PyDateTime
  nowIso : String

/-- Fault schedule of a run: for each guarded node, whether its agent call
raises an exception (`some msg` = the exception's message).  The effective
`final_routing_node` and `fast_track_node` definitions have no `try` guard. -/
structure Faults where
  intake : Option String := none
  risk : Option String := none
  routing : Option String := none
  parallel : Option String := none

/-- The fault-free schedule. -/
def noFaults : Faults := {}

/-- `OrchestratorAgent.log_workflow_event`: append a workflow-log entry,
consuming one clock tick. -/
def logEvent (env : Env) (si : WorkflowState × ℕ) (event agent details : String) :
    WorkflowState × ℕ :=
  let s := si.1
  ({ s with workflow_log :=
      s.workflow_log ++ [{ timestamp := env.clock si.2, event := event, agent := some agent,
                           claim_id := s.claim_id, details := details }] },
   si.2 + 1)

/-- `OrchestratorAgent.log_inter_agent_communication`. -/
def logComm (env : Env) (si : WorkflowState × ℕ) (from_agent to_agent message : String) :
    WorkflowState × ℕ :=
  let s := si.1
  ({ s with inter_agent_communication :=
      s.inter_agent_communication ++ [{ timestamp := env.clock si.2, from_agent := from_agent,
                                        to_agent := to_agent, message := message,
                                        claim_id := s.claim_id }] },
   si.2 + 1)

/-- `OrchestratorAgent.handle_agent_error`: mark the stage failed, and
either schedule a retry (bookkeeping only — the graph has no retry edges)
or mark the workflow failed. -/
def handle_agent_error (env : Env) (si : WorkflowState × ℕ) (agent_name errStr : String) :
    WorkflowState × ℕ :=
  let retry_count := si.1.retry_count
  let max_retries := si.1.max_retries
  let error_msg := "Agent " ++ agent_name ++ " failed: " ++ errStr
  let si := logEvent env si "agent_error" agent_name error_msg
  let si := ({ si.1 with agent_statuses := dictSet si.1.agent_statuses agent_name "failed" }, si.2)
  if retry_count < max_retries then
    let s := { si.1 with retry_count := retry_count + 1,
                         agent_statuses := dictSet si.1.agent_statuses agent_name "retrying",
                         workflow_status := "retry_pending" }
    logEvent env (s, si.2) "retry_initiated" "orchestrator"
      ("Retry " ++ toString (retry_count + 1) ++ "/" ++ toString max_retries
        ++ " for agent " ++ agent_name)
  else
    let s := { si.1 with workflow_status := "failed",
                         error := some ("Max retries exceeded for agent " ++ agent_name ++ ": " ++ error_msg) }
    logEvent env (s, si.2) "workflow_failed" "orchestrator"
      ("Max retries exceeded for agent " ++ agent_name)

/-- `OrchestratorAgent.update_workflow_metrics`, including the incremental
mean (only applied when the recorded processing time is positive). -/
def update_workflow_metrics (m : Metrics) (s : WorkflowState) : Metrics :=
  let m := { m with total_claims_processed := m.total_claims_processed + 1 }
  let m :=
    if s.workflow_status = "completed" then { m with successful_claims := m.successful_claims + 1 }
    else { m with failed_claims := m.failed_claims + 1 }
  let m :=
    if s.total_processing_time > 0 then
      { m with average_processing_time :=
          (m.average_processing_time * ((m.total_claims_processed : ℚ) - 1)
            + s.total_processing_time) / (m.total_claims_processed : ℚ) }
    else m
  if s.retry_count > 0 then
    { m with retry_statistics :=
        if m.retry_statistics.any (fun p => p.1 = s.retry_count) then
          m.retry_statistics.map (fun p => if p.1 = s.retry_count then (p.1, p.2 + 1) else p)
        else m.retry_statistics ++ [(s.retry_count, 1)] }
  else m

/-- `OrchestratorAgent.initialize_workflow_state` (max_retries defaults
to 3 on the module-level orchestrator instance). -/
def init_workflow_state (env : Env) (i : ℕ) (c : ClaimView) : WorkflowState × ℕ :=
  let t := env.clock i
  ({ claim_id := c.claim_id
     type := c.type
     date := c.date
     amount := c.amount
     description := c.description
     customer_id := c.customer_id
     policy_number := c.policy_number
     incident_location := c.incident_location
     police_report := c.police_report
     injuries_reported := c.injuries_reported
     other_party_involved := c.other_party_involved
     timestamp_submitted := c.timestamp_submitted
     customer_tenure_days := c.customer_tenure_days
     previous_claims_count := c.previous_claims_count
     validation_errors := []
     risk_score := none
     risk_level := none
     risk_reasons := []
     priority := none
     adjuster_tier := none
     error := none
     processing_mode := none
     parallel_results := none
     workflow_status := "initiated"
     agent_statuses := [("intake", "pending"), ("risk_assessment", "pending"), ("routing", "pending")]
     processing_start_time := t
     processing_end_time := 0
     total_processing_time := 0
     retry_count := 0
     max_retries := 3
     workflow_log := [{ timestamp := t, event := "workflow_initiated", agent := none,
                        claim_id := c.claim_id, details := "Workflow started for claim processing" }]
     inter_agent_communication := []
     current_agent := "orchestrator"
     next_agent := "intake" }, i + 1)

/-- `determine_processing_mode`. -/
def determine_processing_mode (s : WorkflowState) : String :=
  if (s.type = "auto_glass" ∨ s.type = "windshield") ∧ s.amount < 1000 ∧ ¬s.injuries_reported then
    "fast_track"
  else if s.amount > 25000 ∨ s.injuries_reported ∨ s.other_party_involved
      ∨ (s.type = "liability" ∨ s.type = "medical_payment") then
    "complex"
  else "standard"

/-- `route_processing_mode`: the conditional edge selector after intake. -/
def route_processing_mode (s : WorkflowState) : String :=
  let mode := s.processing_mode.getD "standard"
  if mode = "fast_track" then "fast_track"
  else if mode = "standard" then "parallel"
  else "sequential"

/-- `intake_node`.  On a fault the `except` branch delegates to
`handle_agent_error`; otherwise the intake result's schema keys
(`validation_errors`) are merged and the processing mode recorded. -/
def intake_node (env : Env) (fault : Option String) (si : WorkflowState × ℕ) :
    WorkflowState × ℕ :=
  let si := ({ si.1 with current_agent := "intake",
                         agent_statuses := dictSet si.1.agent_statuses "intake" "processing",
                         workflow_status := "in_progress" }, si.2)
  let si := logEvent env si "agent_started" "intake" "Starting intake processing"
  match fault with
  | some err => handle_agent_error env si "intake" err
  | none =>
    let result := IntakeAgent.process env.nowDT (.dict si.1.toClaimDict)
    let processing_mode := determine_processing_mode si.1
    let si := logComm env si "intake" "orchestrator"
      ("Intake completed, processing mode: " ++ processing_mode)
    let next := if processing_mode = "fast_track" then "fast_track"
      else if processing_mode = "standard" then "parallel_processing"
      else "risk_assessment"
    let s := { si.1 with validation_errors := result.validation_errors,
                         processing_mode := some processing_mode,
                         parallel_results := none,
                         agent_statuses := dictSet si.1.agent_statuses "intake" "completed",
                         next_agent := next }
    logEvent env (s, si.2) "agent_completed" "intake"
      ("Intake processing completed, next: " ++ next)

/-- `risk_node` (sequential path). -/
def risk_node (env : Env) (fault : Option String) (si : WorkflowState × ℕ) :
    WorkflowState × ℕ :=
  let si := ({ si.1 with current_agent := "risk_assessment",
                         agent_statuses := dictSet si.1.agent_statuses "risk_assessment" "processing" }, si.2)
  let si := logEvent env si "agent_started" "risk_assessment" "Starting risk assessment"
  match fault with
  | some err => handle_agent_error env si "risk_assessment" err
  | none =>
    let result := RiskAssessmentAgent.process env.nowIso
      { claim := si.1.toClaimView, validation_errors := si.1.validation_errors }
    let si := logComm env si "risk_assessment" "orchestrator"
      ("Risk assessment completed: " ++ result.risk_level ++ " risk")
    let s := { si.1 with validation_errors := result.validation_errors,
                         risk_score := some result.risk_score,
                         risk_level := some result.risk_level,
                         risk_reasons := result.risk_reasons,
                         agent_statuses := dictSet si.1.agent_statuses "risk_assessment" "completed",
                         next_agent := "routing" }
    logEvent env (s, si.2) "agent_completed" "risk_assessment"
      ("Risk level: " ++ result.risk_level)

/-- `routing_node` (sequential path): the only live node that finalizes the
workflow status and feeds the metrics accumulator.  The returned function is
the metrics update performed on success (`update_workflow_metrics` is only
reached when the agent call did not raise). -/
def routing_node (env : Env) (fault : Option String) (si : WorkflowState × ℕ) :
    (WorkflowState × ℕ) × (Metrics → Metrics) :=
  let si := ({ si.1 with current_agent := "routing",
                         agent_statuses := dictSet si.1.agent_statuses "routing" "processing" }, si.2)
  let si := logEvent env si "agent_started" "routing" "Starting routing decision"
  match fault with
  | some err => (handle_agent_error env si "routing" err, id)
  | none =>
    let result := RoutingAgent.process env.nowIso
      { claim := si.1.toClaimView, risk_level := si.1.risk_level,
        risk_reasons := si.1.risk_reasons, validation_errors := si.1.validation_errors }
    let si := logComm env si "routing" "orchestrator"
      ("Routing completed: " ++ result.priority ++ " priority, " ++ result.adjuster_tier ++ " tier")
    let t := env.clock si.2
    let s := { si.1 with claim_id := result.claim_id,
                         risk_level := result.risk_level,
                         priority := some result.priority,
                         adjuster_tier := some result.adjuster_tier,
                         validation_errors := result.validation_errors,
                         risk_reasons := result.risk_reasons,
                         agent_statuses := dictSet si.1.agent_statuses "routing" "completed",
                         workflow_status := "completed",
                         processing_end_time := t,
                         total_processing_time := t - si.1.processing_start_time,
                         current_agent := "completed",
                         next_agent := "none" }
    let si := logEvent env (s, si.2 + 1) "workflow_completed" "orchestrator"
      ("Workflow completed in " ++ toString s.total_processing_time ++ "s")
    (si, fun m => update_workflow_metrics m s)

/-- `parallel_processing_node` (standard path): risk assessment followed by
a preliminary routing pass over the risk output; both stored in
`parallel_results`. -/
def parallel_processing_node (env : Env) (fault : Option String) (si : WorkflowState × ℕ) :
    WorkflowState × ℕ :=
  let si := ({ si.1 with current_agent := "parallel_processing" }, si.2)
  let si := logEvent env si "parallel_processing_started" "orchestrator" "Starting parallel processing"
  let si := ({ si.1 with agent_statuses := dictSet si.1.agent_statuses "risk_assessment" "processing" }, si.2)
  match fault with
  | some err => handle_agent_error env si "parallel_processing" err
  | none =>
    let risk_result := RiskAssessmentAgent.process env.nowIso
      { claim := si.1.toClaimView, validation_errors := si.1.validation_errors }
    let routing_result := RoutingAgent.process env.nowIso
      { claim := risk_result.claim, risk_level := some risk_result.risk_level,
        risk_reasons := risk_result.risk_reasons, validation_errors := risk_result.validation_errors }
    let si := logComm env si "parallel_processing" "orchestrator" "Parallel processing completed"
    let s := { si.1 with risk_score := some risk_result.risk_score,
                         risk_level := routing_result.risk_level,
                         risk_reasons := routing_result.risk_reasons,
                         claim_id := routing_result.claim_id,
                         priority := some routing_result.priority,
                         adjuster_tier := some routing_result.adjuster_tier,
                         validation_errors :=
                           if si.1.validation_errors ≠ [] then si.1.validation_errors
                           else routing_result.validation_errors,
                         agent_statuses := dictSet si.1.agent_statuses "risk_assessment" "completed",
                         parallel_results := some (risk_result, routing_result),
                         next_agent := "final_routing" }
    logEvent env (s, si.2) "parallel_processing_completed" "orchestrator"
      "Parallel processing completed successfully"

/-- The *effective* `final_routing_node` (the second definition, lines
610–643, which shadows the tracking-aware first one): re-runs routing on the
accumulated state and merges the decision.  It touches neither
`agent_statuses` nor `workflow_status` nor the processing times, and updates
no metrics. -/
def final_routing_node (env : Env) (si : WorkflowState × ℕ) : WorkflowState × ℕ :=
  let s := si.1
  let final_result := RoutingAgent.process env.nowIso
    { claim := s.toClaimView, risk_level := s.risk_level,
      risk_reasons := s.risk_reasons, validation_errors := s.validation_errors }
  ({ s with claim_id := final_result.claim_id,
            risk_level := final_result.risk_level,
            priority := some final_result.priority,
            adjuster_tier := some final_result.adjuster_tier,
            risk_reasons := final_result.risk_reasons,
            validation_errors :=
              if s.validation_errors ≠ [] then s.validation_errors
              else final_result.validation_errors }, si.2)

/-- The *effective* `fast_track_node` (the second definition, lines 646–658,
which shadows the tracking-aware first one): synthesizes the fixed low-risk
result but sets no terminal status, no processing times and no metrics. -/
def fast_track_node (si : WorkflowState × ℕ) : WorkflowState × ℕ :=
  ({ si.1 with risk_score := some 2,
               risk_level := some "LOW",
               risk_reasons := ["Fast-track processing - low complexity"],
               priority := some "low",
               adjuster_tier := some "standard" }, si.2)

/-- `process_claim`: initialize the state, run the compiled graph
(`intake` → conditional → path nodes → END), then append the final
`workflow_completed` log entry.  The graph has no edges into the `error`
node and no retry edges, so every path is one of the three below. -/
def process_claim (env : Env) (faults : Faults) (m : Metrics) (c : ClaimView) :
    WorkflowState × Metrics :=
  let si := init_workflow_state env 0 c
  let si := intake_node env faults.intake si
  let branch := route_processing_mode si.1
  let (si, m) :=
    if branch = "fast_track" then (fast_track_node si, m)
    else if branch = "parallel" then
      (final_routing_node env (parallel_processing_node env faults.parallel si), m)
    else
      let (si', mf) := routing_node env faults.routing (risk_node env faults.risk si)
      (si', mf m)
  let si := logEvent env si "workflow_completed" "orchestrator"
    ("Final status: " ++ si.1.workflow_status)
  (si.1, m)

/-- All workflow states observable at node boundaries during a run of
`process_claim` (the LangGraph channel snapshots), including the final
returned state. -/
def reachable_states (env : Env) (faults : Faults) (c : ClaimView) : List WorkflowState :=
  let si0 := init_workflow_state env 0 c
  let si1 := intake_node env faults.intake si0
  let branch := route_processing_mode si1.1
  let rest :=
    if branch = "fast_track" then [(fast_track_node si1).1]
    else if branch = "parallel" then
      let sp := parallel_processing_node env faults.parallel si1
      [sp.1, (final_routing_node env sp).1]
    else
      let sr := risk_node env faults.risk si1
      [sr.1, (routing_node env faults.routing sr).1.1]
  si0.1 :: si1.1 :: rest ++ [(process_claim env faults Metrics.init c).1]

/-- Is there an `agent_started` workflow-log entry recorded for `stage`? -/
def hasAgentStarted (s : WorkflowState) (stage : String) : Bool :=
  s.workflow_log.any (fun e => e.event == "agent_started" && e.agent == some stage)

/-! ## Concrete fixtures used by the closed theorems -/

/-- A concrete naive `datetime.now()` value (2025-10-12). -/
def nowDT0 : PyDateTime := ⟨2025, 10, 12, 0, 0, 0, 0, false, 0⟩

/-- A concrete run environment. -/
def env0 : Env :=
  { clock := fun i => (i : ℚ), nowDT := nowDT0, nowIso := "2025-10-12T00:00:00" }

/-- A non-trivial starting value of the metrics accumulator. -/
def m1 : Metrics :=
  { total_claims_processed := 5, successful_claims := 3, failed_claims := 2,
    average_processing_time := 10, retry_statistics := [(1, 2)] }

/-- A fast-track claim: glass-only type, amount below 1000, no injuries. -/
def fastClaim : ClaimView :=
  { claim_id := "CLM-FT-1", type := "auto_glass", date := "2024-01-10", amount := 400,
    description := "Cracked windshield", customer_id := "CUST-1", policy_number := "POL-1",
    incident_location := "Main St", police_report := none, injuries_reported := false,
    other_party_involved := false, timestamp_submitted := "2024-01-10T08:00:00Z",
    customer_tenure_days := 400, previous_claims_count := 0 }

/-- A complex-path claim (amount above 25000 forces the sequential path). -/
def cxClaim : ClaimView :=
  { claim_id := "CLM-CX-1", type := "auto_theft", date := "2024-01-14", amount := 35000,
    description := "Vehicle stolen from driveway overnight", customer_id := "CUST-789",
    policy_number := "POL-567", incident_location := "789 Elm St", police_report := some "RPT-1",
    injuries_reported := false, other_party_involved := false,
    timestamp_submitted := "2024-01-14T07:45:00Z", customer_tenure_days := 25,
    previous_claims_count := 0 }

/-- A standard-path claim (neither fast-track nor complex). -/
def stdClaim : ClaimView :=
  { claim_id := "CLM-STD-1", type := "auto_collision", date := "2024-01-10", amount := 5000,
    description := "Rear bumper damage", customer_id := "CUST-2", policy_number := "POL-2",
    incident_location := "Oak Ave", police_report := some "RPT-2", injuries_reported := false,
    other_party_involved := false, timestamp_submitted := "2024-01-10T08:00:00Z",
    customer_tenure_days := 800, previous_claims_count := 0 }

/-- A fully valid submitted claim whose amount is exactly 0. -/
def cZero : ClaimDict :=
  { claim_id := some "CLM-1", type := some "auto_glass", date := some "2024-01-10",
    amount := some (.num 0), description := some "broken glass", customer_id := some "C1",
    policy_number := some "P1", incident_location := some "Main St",
    timestamp_submitted := some "2024-01-10T08:00:00Z",
    injuries_reported := some (.b false), other_party_involved := some (.b false),
    customer_tenure_days := some 400, previous_claims_count := some 0 }

/-- The same claim with a negative amount. -/
def dNeg : ClaimDict := { cZero with amount := some (.num (-5)) }

/-- A routing input reporting injuries. -/
def injInput : RoutingInput :=
  { claim := { stdClaim with injuries_reported := true },
    risk_level := some "LOW", risk_reasons := [], validation_errors := [] }

/-- A text claim description exercising each extractor of
`_parse_text_claim`. -/
def sampleText : String :=
  "$450.00 windshield repair, auto glass claim id: CLM-A on 2024-01-10"

/-! ## Theorems for the specification claims -/

/-- C1: the spec says `process_claim` returns only after reaching a terminal
state (completed or failed).  The code violates this: because the live
`fast_track_node` (the second, shadowing definition) never sets a terminal
status, a fast-track run returns with `workflow_status = "in_progress"`. -/
theorem c1_fast_track_returns_non_terminal_status :
    (process_claim env0 noFaults m1 fastClaim).1.workflow_status = "in_progress" := by
  decide

/-- C3: the spec says the metrics accumulator is updated exactly once per
terminal workflow.  The code violates this: the live `fast_track_node` never
calls `update_workflow_metrics`, so a completed fast-track run leaves the
accumulator untouched. -/
theorem c3_fast_track_completion_skips_metrics :
    (process_claim env0 noFaults m1 fastClaim).2 = m1 := by
  decide

/-- C2: the spec says a failed stage is re-invoked and later stages do not
run until it succeeds.  The code violates this: after the risk stage of a
complex claim fails once, `handle_agent_error` records the retry bookkeeping
but the graph simply advances — routing still runs and the workflow ends
`completed` with the risk stage left `retrying`. -/
theorem c2_failed_stage_not_retried_engine_advances :
    dictGet (process_claim env0 { risk := some "boom" } m1 cxClaim).1.agent_statuses
        "risk_assessment" = some "retrying" ∧
    dictGet (process_claim env0 { risk := some "boom" } m1 cxClaim).1.agent_statuses
        "routing" = some "completed" ∧
    (process_claim env0 { risk := some "boom" } m1 cxClaim).1.retry_count = 1 ∧
    (process_claim env0 { risk := some "boom" } m1 cxClaim).1.workflow_status = "completed" := by
  decide

/-- C4 (counterexample): on the standard (parallel) path the state ends with
`agent_statuses["risk_assessment"] = "completed"` while the workflow log
contains no entry for the `risk_assessment` stage at all. -/
theorem c4_completed_without_processing_log_entry :
    dictGet (process_claim env0 noFaults m1 stdClaim).1.agent_statuses "risk_assessment"
        = some "completed" ∧
    (process_claim env0 noFaults m1 stdClaim).1.workflow_log.all
        (fun e => e.agent ≠ some "risk_assessment") = true := by
  decide

/-- C8 (counterexample): a fully valid claim whose amount is exactly 0
produces no validation error at all — `_validate_business_rules` guards the
amount checks with `if claim.get("amount"):`, and `0` is falsy in Python. -/
theorem c8_zero_amount_not_flagged :
    (IntakeAgent.process nowDT0 (.dict cZero)).validation_errors = [] := by
  decide

/-- C9: `RiskAssessmentAgent.process` returns the input claim object and the
input validation-error list unchanged; only the risk-result fields
(`risk_score`, `risk_level`, `risk_reasons`, `fraud_indicators`,
`assessment_timestamp`) are added. -/
theorem c9_risk_agent_preserves_claim_and_errors (nowIso : String) (input : RiskInput) :
    (RiskAssessmentAgent.process nowIso input).claim = input.claim ∧
    (RiskAssessmentAgent.process nowIso input).validation_errors = input.validation_errors :=
  ⟨rfl, rfl⟩

/-- C7: the risk score is an integer clamped to `[1, 10]`, and the risk level
is exactly the band of that score: LOW iff `≤ 3`, MEDIUM iff `4..6`, HIGH
iff `≥ 7`. -/
theorem c7_risk_score_clamped_and_level_bands (nowIso : String) (input : RiskInput) :
    1 ≤ (RiskAssessmentAgent.process nowIso input).risk_score ∧
    (RiskAssessmentAgent.process nowIso input).risk_score ≤ 10 ∧
    ((RiskAssessmentAgent.process nowIso input).risk_level = "LOW"
      ↔ (RiskAssessmentAgent.process nowIso input).risk_score ≤ 3) ∧
    ((RiskAssessmentAgent.process nowIso input).risk_level = "MEDIUM"
      ↔ 4 ≤ (RiskAssessmentAgent.process nowIso input).risk_score ∧
        (RiskAssessmentAgent.process nowIso input).risk_score ≤ 6) ∧
    ((RiskAssessmentAgent.process nowIso input).risk_level = "HIGH"
      ↔ 7 ≤ (RiskAssessmentAgent.process nowIso input).risk_score) := by
  have hs : (RiskAssessmentAgent.process nowIso input).risk_score
      = min 10 (max 1 (RiskAssessmentAgent.scoreAndReasons input.claim input.validation_errors).1) :=
    rfl
  have hl : (RiskAssessmentAgent.process nowIso input).risk_level
      = RiskAssessmentAgent.riskLevelOf (RiskAssessmentAgent.process nowIso input).risk_score :=
    rfl
  rw [hl, hs, RiskAssessmentAgent.riskLevelOf]
  set raw := (RiskAssessmentAgent.scoreAndReasons input.claim input.validation_errors).1
  refine ⟨by omega, by omega, ?_, ?_, ?_⟩ <;> split_ifs <;> simp_all <;> omega

set_option maxHeartbeats 1000000 in
/-- C6: any routing input with `injuries_reported = true` is routed with
priority `urgent` and adjuster tier `senior`; the injuries rule is first in
the cascade, and neither the validation-error elevation nor the special-type
adjustment ever lowers it. -/
theorem c6_injuries_always_urgent_senior (nowIso : String) (input : RoutingInput)
    (h : input.claim.injuries_reported = true) :
    (RoutingAgent.process nowIso input).priority = "urgent" ∧
    (RoutingAgent.process nowIso input).adjuster_tier = "senior" := by
  simp [RoutingAgent.process, h]
  split_ifs <;> simp

/-- Witness for C6 at a concrete injuries-reported input. -/
theorem c6_witness :
    (RoutingAgent.process "2025-10-12T00:00:00" injInput).priority = "urgent" ∧
    (RoutingAgent.process "2025-10-12T00:00:00" injInput).adjuster_tier = "senior" :=
  c6_injuries_always_urgent_senior "2025-10-12T00:00:00" injInput rfl

/-- C10: `IntakeAgent.process` accepts raw text: the parsed claim always
carries the whole text as its description, the result is exactly what the
same structured dictionary submission would produce, and on a sample text
the pattern extractors recover the claim id, type, date, and amount. -/
theorem c10_text_input_full_description_and_same_validation (now : PyDateTime) (t : String) :
    IntakeAgent.process now (.text t)
        = IntakeAgent.process now (.dict (IntakeAgent.parse_text_claim t)) ∧
    (IntakeAgent.parse_text_claim t).description = some t ∧
    (IntakeAgent.parse_text_claim sampleText).claim_id = some "CLM-A" ∧
    (IntakeAgent.parse_text_claim sampleText).type = some "auto_glass" ∧
    (IntakeAgent.parse_text_claim sampleText).date = some "2024-01-10" ∧
    (IntakeAgent.parse_text_claim sampleText).amount = some (AmountV.num 450) := by
  refine ⟨?_, rfl, by decide, by decide, by decide, ?_⟩
  · have hne : ¬ IntakeAgent.parse_text_claim t = emptyClaimDict := by
      intro hEq
      have hd := congrArg ClaimDict.description hEq
      simp [IntakeAgent.parse_text_claim, emptyClaimDict] at hd
    simp [IntakeAgent.process, hne]
  · have hsearch : searchFirst IntakeAgent.tryAmountAt sampleText.data
        = some ['4', '5', '0', '.', '0', '0'] := by decide
    have hval : IntakeAgent.amountGroupToRat ['4', '5', '0', '.', '0', '0'] = 450 := by
      simp [IntakeAgent.amountGroupToRat, digitsToNat]
    simp [IntakeAgent.parse_text_claim, hsearch, hval]

/-- C8 (amended): the intake validators flag a present numeric amount
whenever it is strictly negative (`invalid_amount_negative`) or above one
million (`amount_requires_special_handling`); an amount of exactly 0 is
*not* flagged, because `_validate_business_rules` guards the amount checks
with Python truthiness. -/
theorem c8_negative_and_over_million_flagged (now : PyDateTime) (d : ClaimDict) (q : ℚ)
    (h : d.amount = some (AmountV.num q)) :
    (q < 0 → "invalid_amount_negative" ∈ (IntakeAgent.process now (.dict d)).validation_errors) ∧
    (q > 1000000 →
      "amount_requires_special_handling"
        ∈ (IntakeAgent.process now (.dict d)).validation_errors) := by
  constructor
  · intro hq
    simp [IntakeAgent.process, IntakeAgent.validate_data_types, h, pyFloat, hq, List.mem_append]
  · intro hq
    have hq0 : ¬ q = 0 := by
      intro hc
      rw [hc] at hq
      exact absurd hq (by norm_num)
    simp [IntakeAgent.process, IntakeAgent.validate_business_rules, amountTruthy, h, hq, hq0,
      pyFloat, List.mem_append]

/-- Witness for C8 (amended) at a concrete negative amount. -/
theorem c8_witness :
    "invalid_amount_negative" ∈ (IntakeAgent.process nowDT0 (.dict dNeg)).validation_errors :=
  (c8_negative_and_over_million_flagged nowDT0 dNeg (-5) rfl).1 (by norm_num)

set_option maxHeartbeats 1000000 in
/-- C5: the fast-track branch is selected iff the claim type is glass-only
(`auto_glass`/`windshield`), the amount is below 1000 and no injuries are
reported; every fast-track run returns `risk_level = LOW`, `priority = low`,
`adjuster_tier = standard`. -/
theorem c5_fast_track_path_iff_and_low_risk_output (env : Env) (m : Metrics) (c : ClaimView) :
    (route_processing_mode (intake_node env none (init_workflow_state env 0 c)).1 = "fast_track"
      ↔ ((c.type = "auto_glass" ∨ c.type = "windshield") ∧ c.amount < 1000 ∧
          c.injuries_reported = false)) ∧
    (((c.type = "auto_glass" ∨ c.type = "windshield") ∧ c.amount < 1000 ∧
        c.injuries_reported = false) →
      ((process_claim env noFaults m c).1.risk_level = some "LOW" ∧
       (process_claim env noFaults m c).1.priority = some "low" ∧
       (process_claim env noFaults m c).1.adjuster_tier = some "standard")) := by
  have hiff : route_processing_mode (intake_node env none (init_workflow_state env 0 c)).1
      = "fast_track"
      ↔ ((c.type = "auto_glass" ∨ c.type = "windshield") ∧ c.amount < 1000 ∧
          c.injuries_reported = false) := by
    simp only [route_processing_mode, intake_node, logEvent, logComm, init_workflow_state,
      determine_processing_mode, Option.getD_some]
    split_ifs <;> simp_all
  refine ⟨hiff, fun hc => ?_⟩
  have hr := hiff.mpr hc
  simp only [process_claim, noFaults]
  rw [if_pos hr]
  simp [logEvent, fast_track_node]

/-- Witness for C5 at the concrete fast-track claim. -/
theorem c5_witness :
    (process_claim env0 noFaults m1 fastClaim).1.risk_level = some "LOW" ∧
    (process_claim env0 noFaults m1 fastClaim).1.priority = some "low" ∧
    (process_claim env0 noFaults m1 fastClaim).1.adjuster_tier = some "standard" :=
  (c5_fast_track_path_iff_and_low_risk_output env0 m1 fastClaim).2 (by decide)

set_option maxHeartbeats 2000000 in
/-- C4 (amended): in every reachable workflow state, a stage whose
`agent_statuses` entry shows `completed` has a corresponding `agent_started`
workflow-log entry — except `risk_assessment` on the parallel
(standard-mode) path, which `parallel_processing_node` marks completed while
logging only orchestrator-level `parallel_processing` events. -/
theorem c4_completed_requires_started_entry_except_parallel (env : Env) (faults : Faults)
    (c : ClaimView) :
    ∀ s ∈ reachable_states env faults c,
      (dictGet s.agent_statuses "intake" = some "completed" →
        hasAgentStarted s "intake" = true) ∧
      (dictGet s.agent_statuses "routing" = some "completed" →
        hasAgentStarted s "routing" = true) ∧
      (dictGet s.agent_statuses "risk_assessment" = some "completed" →
        hasAgentStarted s "risk_assessment" = true ∨
        route_processing_mode (intake_node env faults.intake (init_workflow_state env 0 c)).1
          = "parallel") := by
  obtain ⟨fi, fr, fro, fp⟩ := faults
  intro s hs
  cases fi with
  | some e =>
    have hR : route_processing_mode
        (intake_node env (some e) (init_workflow_state env 0 c)).1 = "parallel" := rfl
    simp only [reachable_states, process_claim] at hs
    rw [hR] at hs
    simp only [String.reduceEq, reduceIte, List.mem_cons, List.mem_append, List.mem_singleton,
      List.not_mem_nil, or_false] at hs
    cases fp with
    | none =>
      rcases hs with (rfl | rfl | rfl | rfl) | rfl <;>
        refine ⟨?_, ?_, ?_⟩ <;>
          first
            | exact fun h => absurd (Option.some.inj h) (by decide)
            | exact fun _ => rfl
            | exact fun _ => Or.inr rfl
    | some e2 =>
      rcases hs with (rfl | rfl | rfl | rfl) | rfl <;>
        refine ⟨?_, ?_, ?_⟩ <;>
          first
            | exact fun h => absurd (Option.some.inj h) (by decide)
            | exact fun _ => rfl
            | exact fun _ => Or.inr rfl
  | none =>
    simp only [reachable_states, process_claim] at hs
    by_cases h1 : route_processing_mode
        (intake_node env none (init_workflow_state env 0 c)).1 = "fast_track"
    · rw [if_pos h1, if_pos h1] at hs
      simp only [List.mem_cons, List.mem_append, List.mem_singleton, List.not_mem_nil,
        or_false] at hs
      rcases hs with (rfl | rfl | rfl) | rfl <;>
        refine ⟨?_, ?_, ?_⟩ <;>
          first
            | exact fun h => absurd (Option.some.inj h) (by decide)
            | exact fun _ => rfl
    · by_cases h2 : route_processing_mode
          (intake_node env none (init_workflow_state env 0 c)).1 = "parallel"
      · rw [if_neg h1, if_neg h1, if_pos h2, if_pos h2] at hs
        simp only [List.mem_cons, List.mem_append, List.mem_singleton, List.not_mem_nil,
          or_false] at hs
        cases fp with
        | none =>
          rcases hs with (rfl | rfl | rfl | rfl) | rfl <;>
            refine ⟨?_, ?_, ?_⟩ <;>
              first
                | exact fun h => absurd (Option.some.inj h) (by decide)
                | exact fun _ => rfl
                | exact fun _ => Or.inr h2
        | some e2 =>
          rcases hs with (rfl | rfl | rfl | rfl) | rfl <;>
            refine ⟨?_, ?_, ?_⟩ <;>
              first
                | exact fun h => absurd (Option.some.inj h) (by decide)
                | exact fun _ => rfl
                | exact fun _ => Or.inr h2
      · rw [if_neg h1, if_neg h1, if_neg h2, if_neg h2] at hs
        simp only [List.mem_cons, List.mem_append, List.mem_singleton, List.not_mem_nil,
          or_false] at hs
        cases fr with
        | none =>
          cases fro with
          | none =>
            rcases hs with (rfl | rfl | rfl | rfl) | rfl <;>
              refine ⟨?_, ?_, ?_⟩ <;>
                first
                  | exact fun h => absurd (Option.some.inj h) (by decide)
                  | exact fun _ => rfl
                  | exact fun _ => Or.inl rfl
          | some e3 =>
            rcases hs with (rfl | rfl | rfl | rfl) | rfl <;>
              refine ⟨?_, ?_, ?_⟩ <;>
                first
                  | exact fun h => absurd (Option.some.inj h) (by decide)
                  | exact fun _ => rfl
                  | exact fun _ => Or.inl rfl
        | some e4 =>
          cases fro with
          | none =>
            rcases hs with (rfl | rfl | rfl | rfl) | rfl <;>
              refine ⟨?_, ?_, ?_⟩ <;>
                first
                  | exact fun h => absurd (Option.some.inj h) (by decide)
                  | exact fun _ => rfl
                  | exact fun _ => Or.inl rfl
          | some e5 =>
            rcases hs with (rfl | rfl | rfl | rfl) | rfl <;>
              refine ⟨?_, ?_, ?_⟩ <;>
                first
                  | exact fun h => absurd (Option.some.inj h) (by decide)
                  | exact fun _ => rfl
                  | exact fun _ => Or.inl rfl

/-- Witness for C4 (amended), exercised at the post-intake state of a
concrete fault-free run: there the intake stage *is* completed
(`agent_statuses["intake"] = "completed"`, discharged by `decide`), and the
theorem yields the corresponding `agent_started` workflow-log entry. -/
theorem c4_amended_witness :
    hasAgentStarted
        (intake_node env0 noFaults.intake (init_workflow_state env0 0 fastClaim)).1
        "intake" = true :=
  (c4_completed_requires_started_entry_except_parallel env0 noFaults fastClaim
      (intake_node env0 noFaults.intake (init_workflow_state env0 0 fastClaim)).1
      (by
        simp only [reachable_states]
        exact List.mem_cons_of_mem _ (List.mem_cons_self _ _))).1
    (by decide)
